import Mathlib

/-!
Verification development for the vulcan reverse proxy.

The Go sources embedded here:
* `proxy.go` — the `Proxy` handler: `ServeHTTP`, `proxyRequest`, `replyError`;
* `control/js/error.go` — translation between typed errors and plain
  key/value mappings: `errorToJs`, `errorFromJs`, `errorFromDict`;
* the middleware/observer attempt semantics of a Location's round trip,
  modelled from the specification (the `httploc` implementation itself is
  not part of the sources, only its test).

All functions are embedded as executable Lean definitions; per-request
effects (header writes, status writes, body writes, body closes, number of
`ReadBody` / `RoundTrip` invocations) are made explicit in the result types.
-/

namespace Vulcan

/-- Embeds Go `error` values as they are distinguished by `proxy.go`'s type
assertions: `errors.ProxyError` values produced by `errors.FromStatus`
(carrying an HTTP status), `net.Error` values (with their `Timeout()` flag),
`netutils.MaxSizeReachedError`, and any other error value. -/
inductive GoError where
  | proxyError (status : Nat)
  | netError (timeout : Bool) (msg : String)
  | maxSizeReached
  | other (msg : String)
deriving DecidableEq, Repr

/-- Embeds the observable parts of an `*http.Response` used by
`proxyRequest`: headers, status code and body bytes. -/
structure Response where
  header : List (String × String)
  statusCode : Nat
  body : List Nat
deriving DecidableEq, Repr

/-- Embeds the buffered request body returned by `ReadBody`. -/
structure BufferedBody where
  bytes : List Nat
deriving DecidableEq, Repr

/-- Embeds a Location as `proxyRequest` observes it for one request: the
result its body reader returns for this request's body, and the result its
`RoundTrip` returns for this request. -/
structure HttpLocation where
  readBodyResult : Option BufferedBody × Option GoError
  roundTripResult : Option Response × Option GoError
deriving DecidableEq, Repr

/-- Embeds the result of `p.router.Route(req)`: a possibly-nil location and
a possibly-nil error. -/
structure RouteResult where
  location : Option HttpLocation
  err : Option GoError
deriving DecidableEq, Repr

/-- Embeds the state of an `http.ResponseWriter` as the proxy mutates it:
headers added so far, the list of `WriteHeader` status codes issued (exactly
one per well-formed response), and the body bytes written. -/
structure WriterState where
  headers : List (String × String)
  status : List Nat
  body : List Nat
deriving DecidableEq, Repr

/-- A fresh response writer with nothing written. -/
def emptyWriter : WriterState := ⟨[], [], []⟩

/-- Embeds Go's `Header().Set(k, v)`: any existing values for the key are
replaced by the single value `v`. -/
def headerSet (hs : List (String × String)) (k v : String) : List (String × String) :=
  (hs.filter (fun p => p.1 ≠ k)) ++ [(k, v)]

/-- The outcome of one `proxyRequest` call: the writer state it leaves
behind, the error it returns, and the per-request effects — how many times
the body reader's `ReadBody` ran, how many times `Location.RoundTrip` ran,
whether the backend response body was closed (`defer response.Body.Close()`),
and whether the buffered request body was closed (`defer body.Close()`). -/
structure ProxyOutcome where
  w : WriterState
  err : Option GoError
  readBodyCalls : Nat
  roundTripCalls : Nat
  respBodyClosed : Bool
  reqBodyClosed : Bool
deriving DecidableEq, Repr

/-- Embeds `(*Proxy).proxyRequest` from `proxy.go` for one request.
The Go control flow, in order: return the router's error if non-nil; if the
router returned a nil location, return `errors.FromStatus(502)`; read the
body, and on `err != nil || body == nil` return 408 for a `net.Error` whose
`Timeout()` is true, 413 for a `*netutils.MaxSizeReachedError`, 400
otherwise; round trip, and on a non-nil response copy its headers, write its
status, stream its body, close it and return nil, else return the round-trip
error. -/
def proxyRequest (route : RouteResult) (w : WriterState) : ProxyOutcome :=
  match route.err with
  | some e => ⟨w, some e, 0, 0, false, false⟩
  | none =>
    match route.location with
    | none => ⟨w, some (GoError.proxyError 502), 0, 0, false, false⟩
    | some loc =>
      let body := loc.readBodyResult.1
      let rerr := loc.readBodyResult.2
      if rerr.isSome || body.isNone then
        let e := match rerr with
          | some (GoError.netError true _) => GoError.proxyError 408
          | some GoError.maxSizeReached => GoError.proxyError 413
          | _ => GoError.proxyError 400
        ⟨w, some e, 1, 0, false, false⟩
      else
        match loc.roundTripResult with
        | (some resp, _) =>
          ⟨⟨w.headers ++ resp.header, w.status ++ [resp.statusCode], w.body ++ resp.body⟩,
            none, 1, 1, true, true⟩
        | (none, rtErr) => ⟨w, rtErr, 1, 1, false, true⟩

/-- Embeds `(*Proxy).replyError` from `proxy.go`: resolve the error to an
`errors.ProxyError` (the error itself when the type assertion succeeds,
`errors.FromStatus(502)` otherwise, represented by its status code), drain
the inbound request body, ask the formatter for
`(statusCode, body, contentType)`, set the `Content-Type` header, write the
status and write the body. Returns the final writer state and the fact that
the request body was drained.

`resolveProxyError` embeds the resolution step: the type assertion
`err.(errors.ProxyError)` keeps the error itself (represented by its status
code) and any other error value becomes `errors.FromStatus(502)`. -/
def resolveProxyError (err : GoError) : Nat :=
  match err with
  | GoError.proxyError s => s
  | _ => 502

def replyError (fmt : Nat → Nat × List Nat × String) (err : GoError) (w : WriterState) :
    WriterState × Bool :=
  let r := fmt (resolveProxyError err)
  let statusCode := r.1
  let body := r.2.1
  let contentType := r.2.2
  (⟨headerSet w.headers "Content-Type" contentType,
    w.status ++ [statusCode], w.body ++ body⟩, true)

/-- The observable outcome of one `ServeHTTP` call. -/
structure ServeOutcome where
  w : WriterState
  reqDrained : Bool
  readBodyCalls : Nat
  roundTripCalls : Nat
deriving DecidableEq, Repr

/-- Embeds `(*Proxy).ServeHTTP` from `proxy.go`: run `proxyRequest`; when it
returns a non-nil error, run `replyError` on it. -/
def ServeHTTP (fmt : Nat → Nat × List Nat × String) (route : RouteResult) (w : WriterState) :
    ServeOutcome :=
  let o := proxyRequest route w
  match o.err with
  | some e =>
    let r := replyError fmt e o.w
    ⟨r.1, r.2, o.readBodyCalls, o.roundTripCalls⟩
  | none => ⟨o.w, false, o.readBodyCalls, o.roundTripCalls⟩

/-! ## Embedding of `control/js/error.go` -/

/-- Embeds the JavaScript values that cross the scripting boundary as Go
`interface{}` values: `nil`, booleans, numbers (Go `float64`, modelled with
`Rat`), strings, arrays, objects (`map[string]interface{}`), and values the
JSON encoder rejects (functions, channels and the like). -/
inductive JsValue where
  | null
  | boolean (b : Bool)
  | num (q : Rat)
  | str (s : String)
  | arr (xs : List JsValue)
  | obj (fields : List (String × JsValue))
  | unsupported

/-- Models Go's `http.StatusText` for the status codes this code base uses;
like the original it returns the empty string for an unknown code. -/
def statusText (code : Int) : String :=
  if code = 200 then "OK"
  else if code = 400 then "Bad Request"
  else if code = 403 then "Forbidden"
  else if code = 404 then "Not Found"
  else if code = 408 then "Request Timeout"
  else if code = 413 then "Request Entity Too Large"
  else if code = 429 then "Too Many Requests"
  else if code = 500 then "Internal Server Error"
  else if code = 502 then "Bad Gateway"
  else ""

/-- JSON string escaping for `jsonMarshal`: double quotes and backslashes
are escaped with a backslash. -/
def escChar (c : Char) : List Char :=
  if c = Char.ofNat 34 then [Char.ofNat 92, Char.ofNat 34]
  else if c = Char.ofNat 92 then [Char.ofNat 92, Char.ofNat 92]
  else [c]

/-- Serializes a string as a JSON string literal. -/
def jsonStr (s : String) : String :=
  String.mk (Char.ofNat 34 :: (s.data.map escChar).flatten ++ [Char.ofNat 34])

/-- Renders a JSON number: an integer without a fractional part, any other
rational as numerator/denominator (the exact digits do not matter to the
claims, only that serialization is a total function on numbers). -/
def jsonNum (q : Rat) : String :=
  if q.den = 1 then toString q.num else toString q

/-- Joins already-serialized fragments with commas. -/
def joinComma : List String → String
  | [] => ""
  | [x] => x
  | x :: xs => x ++ "," ++ joinComma xs

mutual

/-- Models Go's `json.Marshal` on the values of `JsValue`: total on every
value except those containing an `unsupported` leaf, for which it returns
`none` (Go returns an `UnsupportedTypeError`). -/
def jsonMarshal : JsValue → Option String
  | JsValue.null => some "null"
  | JsValue.boolean true => some "true"
  | JsValue.boolean false => some "false"
  | JsValue.num q => some (jsonNum q)
  | JsValue.str s => some (jsonStr s)
  | JsValue.arr xs =>
    match jsonMarshalList xs with
    | some parts => some ("[" ++ joinComma parts ++ "]")
    | none => none
  | JsValue.obj fs =>
    match jsonMarshalFields fs with
    | some parts => some ("\x7b" ++ joinComma parts ++ "\x7d")
    | none => none
  | JsValue.unsupported => none

/-- Serializes the elements of a JSON array. -/
def jsonMarshalList : List JsValue → Option (List String)
  | [] => some []
  | x :: xs =>
    match jsonMarshal x, jsonMarshalList xs with
    | some s, some rest => some (s :: rest)
    | _, _ => none

/-- Serializes the fields of a JSON object. -/
def jsonMarshalFields : List (String × JsValue) → Option (List String)
  | [] => some []
  | (k, v) :: fs =>
    match jsonMarshal v, jsonMarshalFields fs with
    | some s, some rest => some ((jsonStr k ++ ":" ++ s) :: rest)
    | _, _ => none

end

/-- Embeds `*netutils.HttpError` as `errorFromDict` constructs it:
`StatusCode`, `Status` and the JSON-serialized `Body` bytes (kept as the
serialized string). -/
structure HttpError where
  statusCode : Int
  status : String
  body : String
deriving DecidableEq, Repr

/-- First-match lookup in a field mapping, embedding Go's map indexing
(`v, ok := in[k]`); the mappings that cross the boundary have unique keys. -/
def lookupField (m : List (String × JsValue)) (k : String) : Option JsValue :=
  (m.find? (fun p => p.1 = k)).map (fun p => p.2)

/-- Embeds `errorFromDict` from `control/js/error.go`. The Go control flow,
in order: require a `code` field; require it to be a `float64` equal to
`float64(int(code))` (an integral number, modelled as a rational with
denominator 1); default `message` to `http.StatusText(code)`, but if a
`message` field is present require it to be a string; require a `body`
field; `json.Marshal` it, failing if serialization fails; return the
`HttpError`. -/
def errorFromDict (m : List (String × JsValue)) : Except String HttpError :=
  match lookupField m "code" with
  | none => Except.error "Expected 'code' parameter"
  | some codeI =>
    match codeI with
    | JsValue.num q =>
      if q.den = 1 then
        let code : Int := q.num
        let msgE : Except String String :=
          match lookupField m "message" with
          | none => Except.ok (statusText code)
          | some (JsValue.str s) => Except.ok s
          | some _ => Except.error "Parameter 'message' should be a string"
        match msgE with
        | Except.error e => Except.error e
        | Except.ok message =>
          match lookupField m "body" with
          | none => Except.error "Expected 'body' parameter"
          | some bodyI =>
            match jsonMarshal bodyI with
            | none => Except.error "Failed to serialize body to json"
            | some b => Except.ok ⟨code, message, b⟩
      else Except.error "Parameter 'code' should be integer"
    | _ => Except.error "Parameter 'code' should be integer"

/-- Embeds `errorFromJs` from `control/js/error.go`: accept a
`map[string]interface{}` and translate it with `errorFromDict`; reject any
other value. -/
def errorFromJs (v : JsValue) : Except String HttpError :=
  match v with
  | JsValue.obj m => errorFromDict m
  | _ => Except.error "Unsupported error type"

/-- Embeds the Go `error` values `errorToJs` dispatches on: a
`*command.RetryError` carrying its `Seconds`, and any other error carrying
its `Error()` message. -/
inductive CtrlError where
  | retry (seconds : Int)
  | generic (msg : String)
deriving DecidableEq, Repr

/-- Embeds `errorToJs` from `control/js/error.go`: a `*command.RetryError`
becomes the fixed retry mapping carrying its seconds; every other error
becomes the internal-error mapping with code 500 and the error's message. -/
def errorToJs : CtrlError → List (String × JsValue)
  | CtrlError.retry seconds =>
    [("type", JsValue.str "retry"),
     ("retry-seconds", JsValue.num (seconds : Rat)),
     ("code", JsValue.num 429),
     ("message", JsValue.str "Too Many Requests"),
     ("body", JsValue.str "Too Many Requests")]
  | CtrlError.generic msg =>
    [("type", JsValue.str "internal"),
     ("code", JsValue.num 500),
     ("body", JsValue.str (statusText 500)),
     ("message", JsValue.str msg)]

/-! ## Middleware / observer semantics of one attempt

The `httploc` round-trip implementation is not among the sources (only its
test is), so one attempt of `Location.RoundTrip` is modelled from the
specification, sections 4.3 and 4.4. -/

/-- Modelled from the spec: a middleware chain entry as one attempt observes
it — its unique name and the `(response, error)` pair its `OnRequest`
returns for this attempt. -/
structure Middleware where
  name : String
  result : Option Response × Option GoError
deriving DecidableEq, Repr

/-- A middleware short-circuits (intercepts) the attempt exactly when its
`OnRequest` returns a non-nil response or a non-nil error. -/
def intercepts (m : Middleware) : Bool :=
  m.result.1.isSome || m.result.2.isSome

/-- The callback invocations of one attempt, in invocation order. -/
inductive Event where
  | mwReq (name : String)
  | mwResp (name : String)
  | obsReq (name : String)
  | obsResp (name : String)
  | backendCall
deriving DecidableEq, Repr

/-- Modelled from the spec: run the middleware chain's `OnRequest` hooks in
chain order, stopping at the first middleware that short-circuits. Returns
the names of the middlewares whose `OnRequest` ran (in order) and, when some
middleware short-circuited, its returned `(response, error)` pair. -/
def runMwOnRequest : List Middleware → List String × Option (Option Response × Option GoError)
  | [] => ([], none)
  | m :: rest =>
    if intercepts m then ([m.name], some m.result)
    else
      let r := runMwOnRequest rest
      (m.name :: r.1, r.2)

/-- Modelled from the spec (§4.4, one attempt of `Location.RoundTrip`):
notify every observer's `OnRequest`; run the middleware chain's `OnRequest`
hooks in order until one short-circuits; call the backend only when no
middleware short-circuited, the attempt's outcome being the interceptor's
pair otherwise the backend's; run `OnResponse` of exactly the middlewares
whose `OnRequest` ran, in chain order; notify every observer's
`OnResponse`. Returns the invocation trace and the attempt's outcome. -/
def attempt (mws : List Middleware) (obs : List String)
    (backend : Option Response × Option GoError) :
    List Event × (Option Response × Option GoError) :=
  let r := runMwOnRequest mws
  let ran := r.1
  let intercepted := r.2
  let outcome := intercepted.getD backend
  let events :=
    obs.map Event.obsReq
    ++ ran.map Event.mwReq
    ++ (if intercepted.isSome then [] else [Event.backendCall])
    ++ ran.map Event.mwResp
    ++ obs.map Event.obsResp
  (events, outcome)

/-- Helper: the shape of `runMwOnRequest` when the chain splits as a
non-intercepting prefix, a first interceptor, and a tail. -/
theorem runMwOnRequest_intercept (pre : List Middleware) (m : Middleware)
    (post : List Middleware) (hpre : ∀ x ∈ pre, intercepts x = false)
    (hm : intercepts m = true) :
    runMwOnRequest (pre ++ m :: post) = (pre.map Middleware.name ++ [m.name], some m.result) := by
  induction pre with
  | nil => simp [runMwOnRequest, hm]
  | cons a l ih =>
    have ha : intercepts a = false := hpre a (List.mem_cons_self a l)
    have hl : ∀ x ∈ l, intercepts x = false := fun x hx => hpre x (List.mem_cons_of_mem a hx)
    simp [runMwOnRequest, ha, ih hl]

/-! ## Theorems about the Proxy -/

/-- Helper: whenever `proxyRequest` returns a non-nil error it has written
nothing to the response writer. -/
theorem proxyRequest_error_leaves_writer (route : RouteResult) (w : WriterState)
    (e : GoError) (h : (proxyRequest route w).err = some e) :
    (proxyRequest route w).w = w := by
  rcases route with ⟨loc, rerr⟩
  cases rerr with
  | some e' => rfl
  | none =>
    cases loc with
    | none => rfl
    | some l =>
      rcases hrb : l.readBodyResult with ⟨b, re⟩
      rcases hrt : l.roundTripResult with ⟨resp, rte⟩
      cases re with
      | some e2 => simp [proxyRequest, hrb]
      | none =>
        cases b with
        | none => simp [proxyRequest, hrb]
        | some bb =>
          cases resp with
          | some r => simp [proxyRequest, hrb, hrt] at h
          | none => simp [proxyRequest, hrb, hrt]

/-- Claim C1 (counterexample): when `Location.RoundTrip` returns a nil
response together with a nil error, `ServeHTTP` writes no response at all —
`proxyRequest` returns a nil error, `replyError` never runs, and the status
line is never written. -/
theorem serveHTTP_nilNil_writes_no_response :
    (ServeHTTP (fun s => (s, [], "application/json"))
      ⟨some ⟨(some ⟨[]⟩, none), (none, none)⟩, none⟩ emptyWriter).w.status.length = 0 := rfl

/-- Claim C1 (amended): for every inbound request whose location's
`RoundTrip` does not return a nil response together with a nil error (every
other outcome, including a nil response accompanied by an error), `ServeHTTP`
writes exactly one HTTP response: either the backend response written by
`proxyRequest`, or the formatter-produced response written on the error
path. -/
theorem serveHTTP_writes_one_response (fmt : Nat → Nat × List Nat × String)
    (route : RouteResult)
    (h : ∀ loc, route.location = some loc → loc.roundTripResult ≠ (none, none)) :
    (ServeHTTP fmt route emptyWriter).w.status.length = 1 := by
  rcases route with ⟨loc, rerr⟩
  cases rerr with
  | some e => simp [ServeHTTP, proxyRequest, replyError, emptyWriter]
  | none =>
    cases loc with
    | none => simp [ServeHTTP, proxyRequest, replyError, emptyWriter]
    | some l =>
      have hl := h l rfl
      rcases hrb : l.readBodyResult with ⟨b, re⟩
      rcases hrt : l.roundTripResult with ⟨resp, rte⟩
      cases re with
      | some e => simp [ServeHTTP, proxyRequest, replyError, emptyWriter, hrb]
      | none =>
        cases b with
        | none => simp [ServeHTTP, proxyRequest, replyError, emptyWriter, hrb]
        | some bb =>
          cases resp with
          | some r => simp [ServeHTTP, proxyRequest, replyError, emptyWriter, hrb, hrt]
          | none =>
            cases rte with
            | some e => simp [ServeHTTP, proxyRequest, replyError, emptyWriter, hrb, hrt]
            | none => rw [hrt] at hl; exact absurd rfl hl

/-- Claim C1 (witness for the amended claim). -/
theorem serveHTTP_writes_one_response_witness :
    (ServeHTTP (fun s => (s, [], "application/json"))
      ⟨some ⟨(some ⟨[]⟩, none), (some ⟨[], 200, []⟩, none)⟩, none⟩ emptyWriter).w.status.length
      = 1 :=
  serveHTTP_writes_one_response (fun s => (s, [], "application/json"))
    ⟨some ⟨(some ⟨[]⟩, none), (some ⟨[], 200, []⟩, none)⟩, none⟩
    (by intro loc hl; injection hl with hl'; subst hl'; decide)

/-- Claim C3: when the body read fails, `proxyRequest` returns exactly the
status determined by the failure kind — 408 for a `net.Error` whose
`Timeout()` is true, 413 for a `MaxSizeReachedError`, 400 for any other read
error — and `Location.RoundTrip` is never invoked. -/
theorem proxyRequest_readBody_error (route : RouteResult) (loc : HttpLocation)
    (w : WriterState) (e : GoError) (h1 : route.err = none)
    (h2 : route.location = some loc) (h3 : loc.readBodyResult.2 = some e) :
    (proxyRequest route w).err = some (GoError.proxyError
      (match e with
       | GoError.netError true _ => 408
       | GoError.maxSizeReached => 413
       | _ => 400)) ∧
    (proxyRequest route w).roundTripCalls = 0 := by
  simp only [proxyRequest, h1, h2, h3]
  cases e with
  | proxyError s => simp
  | netError t m => cases t <;> simp
  | maxSizeReached => simp
  | other m => simp

/-- Claim C3 (witness): a max-size body-read failure yields status 413 and
no round trip. -/
theorem proxyRequest_readBody_error_witness :
    (proxyRequest ⟨some ⟨(none, some GoError.maxSizeReached), (none, none)⟩, none⟩
        emptyWriter).err = some (GoError.proxyError 413) ∧
    (proxyRequest ⟨some ⟨(none, some GoError.maxSizeReached), (none, none)⟩, none⟩
        emptyWriter).roundTripCalls = 0 :=
  proxyRequest_readBody_error
    ⟨some ⟨(none, some GoError.maxSizeReached), (none, none)⟩, none⟩
    ⟨(none, some GoError.maxSizeReached), (none, none)⟩ emptyWriter
    GoError.maxSizeReached rfl rfl rfl

/-- Claim C4: when the Router returns a nil location and a nil error,
`proxyRequest` returns the status-502 ProxyError without invoking the body
reader or `RoundTrip`, and the whole request performs zero round trips —
the outcome is terminal and never retried. -/
theorem proxyRequest_no_route (fmt : Nat → Nat × List Nat × String) (w : WriterState) :
    proxyRequest ⟨none, none⟩ w
      = ⟨w, some (GoError.proxyError 502), 0, 0, false, false⟩ ∧
    (ServeHTTP fmt ⟨none, none⟩ w).roundTripCalls = 0 ∧
    (ServeHTTP fmt ⟨none, none⟩ w).readBodyCalls = 0 :=
  ⟨rfl, rfl, rfl⟩

/-- Claim C5: when `RoundTrip` returns a non-nil response, `proxyRequest`
copies its headers and status code verbatim, streams its body, closes the
response body, and returns a nil error. -/
theorem proxyRequest_response_passthrough (route : RouteResult) (loc : HttpLocation)
    (w : WriterState) (b : BufferedBody) (resp : Response) (rtErr : Option GoError)
    (h1 : route.err = none) (h2 : route.location = some loc)
    (h3 : loc.readBodyResult = (some b, none))
    (h4 : loc.roundTripResult = (some resp, rtErr)) :
    proxyRequest route w =
      ⟨⟨w.headers ++ resp.header, w.status ++ [resp.statusCode], w.body ++ resp.body⟩,
        none, 1, 1, true, true⟩ := by
  simp [proxyRequest, h1, h2, h3, h4]

/-- Claim C5 (witness). -/
theorem proxyRequest_response_passthrough_witness :
    proxyRequest
      ⟨some ⟨(some ⟨[1]⟩, none), (some ⟨[("X-A", "v")], 201, [7, 8]⟩, none)⟩, none⟩
      emptyWriter =
      ⟨⟨[("X-A", "v")], [201], [7, 8]⟩, none, 1, 1, true, true⟩ :=
  proxyRequest_response_passthrough
    ⟨some ⟨(some ⟨[1]⟩, none), (some ⟨[("X-A", "v")], 201, [7, 8]⟩, none)⟩, none⟩
    ⟨(some ⟨[1]⟩, none), (some ⟨[("X-A", "v")], 201, [7, 8]⟩, none)⟩
    emptyWriter ⟨[1]⟩ ⟨[("X-A", "v")], 201, [7, 8]⟩ none rfl rfl rfl rfl

/-- Claim C6: whenever `proxyRequest` returns an error, `ServeHTTP` drains
the inbound request body and writes exactly the formatter's
`(statusCode, body, contentType)` for the resolved ProxyError — the error
itself when it is a ProxyError, the status-502 ProxyError otherwise — with
`contentType` as the `Content-Type` header, `statusCode` as the response
status, and `body` as the response body, all unchanged. -/
theorem serveHTTP_formats_error (fmt : Nat → Nat × List Nat × String)
    (route : RouteResult) (e : GoError)
    (h : (proxyRequest route emptyWriter).err = some e) :
    (ServeHTTP fmt route emptyWriter).reqDrained = true ∧
    (ServeHTTP fmt route emptyWriter).w =
      ⟨[("Content-Type", (fmt (resolveProxyError e)).2.2)],
       [(fmt (resolveProxyError e)).1],
       (fmt (resolveProxyError e)).2.1⟩ := by
  have hw := proxyRequest_error_leaves_writer route emptyWriter e h
  simp only [ServeHTTP, h, hw]
  simp [replyError, headerSet, emptyWriter]

/-- Claim C6 (witness): a request-timeout error is formatted and written. -/
theorem serveHTTP_formats_error_witness :
    (ServeHTTP (fun s => (s, [s], "application/json"))
      ⟨some ⟨(none, some (GoError.netError true "t")), (none, none)⟩, none⟩
      emptyWriter).reqDrained = true ∧
    (ServeHTTP (fun s => (s, [s], "application/json"))
      ⟨some ⟨(none, some (GoError.netError true "t")), (none, none)⟩, none⟩
      emptyWriter).w =
      ⟨[("Content-Type", "application/json")], [408], [408]⟩ :=
  serveHTTP_formats_error (fun s => (s, [s], "application/json"))
    ⟨some ⟨(none, some (GoError.netError true "t")), (none, none)⟩, none⟩
    (GoError.proxyError 408) rfl

/-- Claim C10: when `ReadBody` returns a nil body together with a nil error,
`proxyRequest` still fails the request: the nil error matches neither the
timeout nor the max-size branch, so the request terminates with the
status-400 ProxyError and `RoundTrip` is never invoked. -/
theorem proxyRequest_nil_body_nil_error (route : RouteResult) (loc : HttpLocation)
    (w : WriterState) (h1 : route.err = none) (h2 : route.location = some loc)
    (h3 : loc.readBodyResult = (none, none)) :
    (proxyRequest route w).err = some (GoError.proxyError 400) ∧
    (proxyRequest route w).roundTripCalls = 0 := by
  simp [proxyRequest, h1, h2, h3]

/-- Claim C10 (witness). -/
theorem proxyRequest_nil_body_nil_error_witness :
    (proxyRequest ⟨some ⟨(none, none), (some ⟨[], 200, []⟩, none)⟩, none⟩
        emptyWriter).err = some (GoError.proxyError 400) ∧
    (proxyRequest ⟨some ⟨(none, none), (some ⟨[], 200, []⟩, none)⟩, none⟩
        emptyWriter).roundTripCalls = 0 :=
  proxyRequest_nil_body_nil_error
    ⟨some ⟨(none, none), (some ⟨[], 200, []⟩, none)⟩, none⟩
    ⟨(none, none), (some ⟨[], 200, []⟩, none)⟩ emptyWriter rfl rfl rfl

/-! ## Theorems about the error translation -/

/-- Claim C7: for every mapping with an integral numeric `code` and a
serializable `body`, `errorFromDict` succeeds; the `StatusCode` is the code,
the `Status` is the `message` string when present and `http.StatusText` of
the code otherwise, and the `Body` is the JSON serialization of `body`. -/
theorem errorFromDict_wellFormed (m : List (String × JsValue)) (q : Rat)
    (msg : String) (bodyV : JsValue) (s : String)
    (hc : lookupField m "code" = some (JsValue.num q)) (hq : q.den = 1)
    (hmsg : (lookupField m "message" = none ∧ msg = statusText q.num)
            ∨ lookupField m "message" = some (JsValue.str msg))
    (hb : lookupField m "body" = some bodyV) (hs : jsonMarshal bodyV = some s) :
    errorFromDict m = Except.ok ⟨q.num, msg, s⟩ := by
  rcases hmsg with ⟨hnone, hdefault⟩ | hstr
  · subst hdefault
    simp [errorFromDict, hc, hq, hnone, hb, hs]
  · simp [errorFromDict, hc, hq, hstr, hb, hs]

/-- Claim C7 (witness): the mapping
`[code ↦ 403, message ↦ "Forbidden", body ↦ "nope"]` yields status 403 with
reason "Forbidden" and body `"nope"`. -/
theorem errorFromDict_wellFormed_witness :
    errorFromDict
      [("code", JsValue.num 403), ("message", JsValue.str "Forbidden"),
       ("body", JsValue.str "nope")]
      = Except.ok ⟨403, "Forbidden", jsonStr "nope"⟩ :=
  errorFromDict_wellFormed
    [("code", JsValue.num 403), ("message", JsValue.str "Forbidden"),
     ("body", JsValue.str "nope")]
    403 "Forbidden" (JsValue.str "nope") (jsonStr "nope")
    rfl rfl (Or.inr rfl) rfl rfl

/-- Helper: inverting a successful `errorFromDict` run — success requires a
present integral numeric `code`, a string `message` whenever one is present,
and a present serializable `body`. -/
theorem errorFromDict_ok_inv (m : List (String × JsValue)) (e : HttpError)
    (h : errorFromDict m = Except.ok e) :
    (∃ q : Rat, lookupField m "code" = some (JsValue.num q) ∧ q.den = 1) ∧
    (∀ v, lookupField m "message" = some v → ∃ s, v = JsValue.str s) ∧
    (∃ v s, lookupField m "body" = some v ∧ jsonMarshal v = some s) := by
  unfold errorFromDict at h
  rcases hc : lookupField m "code" with _ | cv
  · rw [hc] at h; exact absurd h (by simp)
  rw [hc] at h
  cases cv with
  | num q =>
    by_cases hq : q.den = 1
    · simp only [hq, if_true] at h
      refine ⟨⟨q, rfl, hq⟩, ?_, ?_⟩
      · intro v hv
        rw [hv] at h
        cases v with
        | str s => exact ⟨s, rfl⟩
        | null => simp at h
        | boolean b => simp at h
        | num q2 => simp at h
        | arr xs => simp at h
        | obj fs => simp at h
        | unsupported => simp at h
      · rcases hmv : lookupField m "message" with _ | mv
        · rw [hmv] at h
          rcases hbv : lookupField m "body" with _ | bv
          · rw [hbv] at h; simp at h
          · rw [hbv] at h
            rcases hjs : jsonMarshal bv with _ | s
            · simp [hjs] at h
            · exact ⟨bv, s, rfl, hjs⟩
        · rw [hmv] at h
          cases mv with
          | str sm =>
            simp only at h
            rcases hbv : lookupField m "body" with _ | bv
            · rw [hbv] at h; simp at h
            · rw [hbv] at h
              rcases hjs : jsonMarshal bv with _ | s
              · simp [hjs] at h
              · exact ⟨bv, s, rfl, hjs⟩
          | null => simp at h
          | boolean b => simp at h
          | num q2 => simp at h
          | arr xs => simp at h
          | obj fs => simp at h
          | unsupported => simp at h
    · simp only [hq, if_false] at h; exact absurd h (by simp)
  | null => exact absurd h (by simp)
  | boolean b => exact absurd h (by simp)
  | str s => exact absurd h (by simp)
  | arr xs => exact absurd h (by simp)
  | obj fs => exact absurd h (by simp)
  | unsupported => exact absurd h (by simp)

/-- Claim C8: for every malformed mapping — `code` missing, `code` not an
integral number, `message` present but not a string, `body` missing, or
`body` not JSON-serializable — `errorFromDict` returns an error and never
substitutes a default for the malformed or missing field. -/
theorem errorFromDict_malformed (m : List (String × JsValue))
    (h : lookupField m "code" = none
      ∨ (∃ v, lookupField m "code" = some v ∧ ∀ q : Rat, v = JsValue.num q → q.den ≠ 1)
      ∨ (∃ v, lookupField m "message" = some v ∧ ∀ s, v ≠ JsValue.str s)
      ∨ lookupField m "body" = none
      ∨ (∃ v, lookupField m "body" = some v ∧ jsonMarshal v = none)) :
    ∃ msg, errorFromDict m = Except.error msg := by
  rcases he : errorFromDict m with msg | e
  · exact ⟨msg, rfl⟩
  · exfalso
    obtain ⟨⟨q, hc, hq⟩, hmsg, bv, s, hb, hjs⟩ := errorFromDict_ok_inv m e he
    rcases h with h | ⟨v, hv, hvq⟩ | ⟨v, hv, hvs⟩ | h | ⟨v, hv, hvn⟩
    · rw [hc] at h; cases h
    · rw [hc] at hv; cases hv; exact hvq q rfl hq
    · obtain ⟨s2, hs2⟩ := hmsg v hv
      exact hvs s2 hs2
    · rw [hb] at h; cases h
    · rw [hb] at hv; cases hv; rw [hjs] at hvn; cases hvn

/-- Claim C8 (witness): the empty mapping (no `code`) fails translation. -/
theorem errorFromDict_malformed_witness :
    ∃ msg, errorFromDict [] = Except.error msg :=
  errorFromDict_malformed [] (Or.inl rfl)

/-- Claim C9 (counterexample): the round trip typed error → mapping → typed
error is not lossless — a `RetryError` with 5 retry seconds and one with 7
retry seconds translate to the very same value, so the retry-after seconds
do not survive the round trip. -/
theorem errorRoundTrip_drops_retrySeconds :
    errorFromJs (JsValue.obj (errorToJs (CtrlError.retry 5)))
      = errorFromJs (JsValue.obj (errorToJs (CtrlError.retry 7)))
    ∧ CtrlError.retry 5 ≠ CtrlError.retry 7 := by
  refine ⟨rfl, ?_⟩
  decide

/-- Claim C9 (amended): the round trip typed error → mapping → typed error
always succeeds but is lossy: every `RetryError` collapses to the fixed
status-429 `HttpError` (its retry seconds dropped), and every other error
collapses to a status-500 `HttpError` retaining only the error message. -/
theorem errorRoundTrip_degrades (e : CtrlError) :
    errorFromJs (JsValue.obj (errorToJs e)) =
      Except.ok (match e with
        | CtrlError.retry _ => ⟨429, "Too Many Requests", jsonStr "Too Many Requests"⟩
        | CtrlError.generic msg => ⟨500, msg, jsonStr "Internal Server Error"⟩) := by
  cases e with
  | retry seconds => rfl
  | generic msg => rfl

/-! ## Theorems about the middleware short-circuit -/

/-- Helper: a mapped list contains no occurrences of a value none of the
mapped elements can produce. -/
theorem count_map_eq_zero {α β : Type} [DecidableEq β] (l : List α) (f : α → β)
    (b : β) (h : ∀ a, f a ≠ b) : (l.map f).count b = 0 :=
  List.count_eq_zero.mpr (fun hmem => by
    obtain ⟨a, _, hfa⟩ := List.mem_map.mp hmem
    exact h a hfa)

/-- Claim C2: when the middleware at some position short-circuits the
attempt (its `OnRequest` returns a non-nil response or error) and every
middleware before it does not, then: no middleware appended after it has its
`OnRequest` run, the backend is never called, the interceptor's returned
pair is the attempt's outcome, the interceptor's `OnResponse` runs exactly
once, and every observer receives exactly one `OnRequest` and one
`OnResponse` call for the attempt. -/
theorem middleware_short_circuit (pre : List Middleware) (m : Middleware)
    (post : List Middleware) (obs : List String)
    (backend : Option Response × Option GoError)
    (hpre : ∀ x ∈ pre, intercepts x = false) (hm : intercepts m = true)
    (hnodup : ((pre ++ m :: post).map Middleware.name).Nodup) (hobs : obs.Nodup) :
    (∀ x ∈ post,
      (attempt (pre ++ m :: post) obs backend).1.count (Event.mwReq x.name) = 0) ∧
    (attempt (pre ++ m :: post) obs backend).1.count Event.backendCall = 0 ∧
    (attempt (pre ++ m :: post) obs backend).2 = m.result ∧
    (attempt (pre ++ m :: post) obs backend).1.count (Event.mwResp m.name) = 1 ∧
    (∀ o ∈ obs,
      (attempt (pre ++ m :: post) obs backend).1.count (Event.obsReq o) = 1 ∧
      (attempt (pre ++ m :: post) obs backend).1.count (Event.obsResp o) = 1) := by
  have hrun := runMwOnRequest_intercept pre m post hpre hm
  have hinjReq : Function.Injective Event.mwReq := fun a b hab => by injection hab
  have hinjResp : Function.Injective Event.mwResp := fun a b hab => by injection hab
  have hinjOReq : Function.Injective Event.obsReq := fun a b hab => by injection hab
  have hinjOResp : Function.Injective Event.obsResp := fun a b hab => by injection hab
  simp only [List.map_append, List.map_cons] at hnodup
  obtain ⟨hn1, hn2, hdisj⟩ := List.nodup_append.mp hnodup
  obtain ⟨hmnot, hn3⟩ := List.nodup_cons.mp hn2
  have hmpre : m.name ∉ pre.map Middleware.name := fun hmem =>
    hdisj hmem (List.mem_cons_self m.name (post.map Middleware.name))
  have hev : (attempt (pre ++ m :: post) obs backend).1 =
      obs.map Event.obsReq
      ++ ((pre.map Middleware.name ++ [m.name]).map Event.mwReq
      ++ ((pre.map Middleware.name ++ [m.name]).map Event.mwResp
      ++ obs.map Event.obsResp)) := by
    simp [attempt, hrun]
  refine ⟨?_, ?_, ?_, ?_, ?_⟩
  · intro x hx
    have hxname : x.name ∈ post.map Middleware.name := List.mem_map_of_mem _ hx
    have hxpre : x.name ∉ pre.map Middleware.name := fun hmem =>
      hdisj hmem (List.mem_cons_of_mem m.name hxname)
    have hxm : x.name ≠ m.name := fun hxy => hmnot (hxy ▸ hxname)
    rw [hev]
    simp only [List.count_append, List.count_map_of_injective _ _ hinjReq]
    rw [count_map_eq_zero obs Event.obsReq _ (fun a h => Event.noConfusion h),
        count_map_eq_zero _ Event.mwResp _ (fun a h => Event.noConfusion h),
        count_map_eq_zero obs Event.obsResp _ (fun a h => Event.noConfusion h),
        List.count_eq_zero_of_not_mem hxpre,
        List.count_eq_zero_of_not_mem (l := [m.name]) (by simpa using hxm)]
  · rw [hev]
    simp only [List.count_append]
    rw [count_map_eq_zero obs Event.obsReq _ (fun a h => Event.noConfusion h),
        count_map_eq_zero _ Event.mwReq _ (fun a h => Event.noConfusion h),
        count_map_eq_zero _ Event.mwResp _ (fun a h => Event.noConfusion h),
        count_map_eq_zero obs Event.obsResp _ (fun a h => Event.noConfusion h)]
  · simp [attempt, hrun]
  · rw [hev]
    simp only [List.count_append, List.count_map_of_injective _ _ hinjResp]
    rw [count_map_eq_zero obs Event.obsReq _ (fun a h => Event.noConfusion h),
        count_map_eq_zero _ Event.mwReq _ (fun a h => Event.noConfusion h),
        count_map_eq_zero obs Event.obsResp _ (fun a h => Event.noConfusion h),
        List.count_eq_zero_of_not_mem hmpre]
    simp
  · intro o ho
    constructor
    · rw [hev]
      simp only [List.count_append, List.count_map_of_injective _ _ hinjOReq]
      rw [count_map_eq_zero _ Event.mwReq _ (fun a h => Event.noConfusion h),
          count_map_eq_zero _ Event.mwResp _ (fun a h => Event.noConfusion h),
          count_map_eq_zero obs Event.obsResp _ (fun a h => Event.noConfusion h),
          List.count_eq_one_of_mem hobs ho]
    · rw [hev]
      simp only [List.count_append, List.count_map_of_injective _ _ hinjOResp]
      rw [count_map_eq_zero _ Event.mwReq _ (fun a h => Event.noConfusion h),
          count_map_eq_zero _ Event.mwResp _ (fun a h => Event.noConfusion h),
          count_map_eq_zero obs Event.obsReq _ (fun a h => Event.noConfusion h),
          List.count_eq_one_of_mem hobs ho]

/-- Claim C2 (witness): an intercepting "auth" middleware ahead of a "cb"
middleware, with one observer "ob", as in the repository's
`TestMiddlewareInterceptsRequest`. -/
theorem middleware_short_circuit_witness :
    (∀ x ∈ [Middleware.mk "cb" (none, none)],
      (attempt [⟨"auth", (some ⟨[], 403, [1]⟩, none)⟩, ⟨"cb", (none, none)⟩] ["ob"]
        (some ⟨[], 200, []⟩, none)).1.count (Event.mwReq x.name) = 0) ∧
    (attempt [⟨"auth", (some ⟨[], 403, [1]⟩, none)⟩, ⟨"cb", (none, none)⟩] ["ob"]
      (some ⟨[], 200, []⟩, none)).1.count Event.backendCall = 0 ∧
    (attempt [⟨"auth", (some ⟨[], 403, [1]⟩, none)⟩, ⟨"cb", (none, none)⟩] ["ob"]
      (some ⟨[], 200, []⟩, none)).2 = (some ⟨[], 403, [1]⟩, none) ∧
    (attempt [⟨"auth", (some ⟨[], 403, [1]⟩, none)⟩, ⟨"cb", (none, none)⟩] ["ob"]
      (some ⟨[], 200, []⟩, none)).1.count (Event.mwResp "auth") = 1 ∧
    (∀ o ∈ ["ob"],
      (attempt [⟨"auth", (some ⟨[], 403, [1]⟩, none)⟩, ⟨"cb", (none, none)⟩] ["ob"]
        (some ⟨[], 200, []⟩, none)).1.count (Event.obsReq o) = 1 ∧
      (attempt [⟨"auth", (some ⟨[], 403, [1]⟩, none)⟩, ⟨"cb", (none, none)⟩] ["ob"]
        (some ⟨[], 200, []⟩, none)).1.count (Event.obsResp o) = 1) :=
  middleware_short_circuit [] ⟨"auth", (some ⟨[], 403, [1]⟩, none)⟩
    [⟨"cb", (none, none)⟩] ["ob"] (some ⟨[], 200, []⟩, none)
    (by intro x hx; cases hx) rfl (by decide) (by decide)

end Vulcan
